import Mathlib

/-!
Formal model of the purchase-with-inventory-lock transaction of the
artisan-marketplace backend.

The file gives a shallow embedding of the core of the repository:

* `purchase_with_lock` embeds the endpoint of the same name in
  `main.py` (connection acquisition from the pool, the
  `FOR UPDATE NOWAIT` lock query, the stock check, the ordered write
  sequence, commit, rollback, and the `finally` cleanup);
* `create_transaction` embeds the helper of the same name in
  `database.py`;
* `get_cursor` embeds the cursor context manager of
  `DatabaseManager` in `database.py`;
* `validate_price`, `validate_stock`, `validate_quantity` embed the
  pydantic validators of `main.py`.

Monetary values are exact rationals (fixed-point currency values, as
the specification describes the store columns); Python `round(x, 2)`
is modelled by `round2`, round-half-to-even at two decimal places.
Database-generated identifiers and timestamps are natural-number
counters; the relational store is a record of lists of rows holding
the fields the transaction coordinator reads and writes.  The
enclosing SQL transaction is modelled by returning the
pre-transaction state on every aborted path (rollback) and the fully
written state on commit.  Store faults and lock contention, which in
the running system arrive as psycopg2 exceptions, are injected
through an explicit environment `Env`.
-/

namespace Marketplace

/-- A row of the `products` table, with the fields the purchase
transaction reads through its lock query (`main.py` lines 536-541):
identifier, owning artisan, name, unit price, stock quantity. -/
structure Product where
  product_id : Nat
  artisan_id : Nat
  product_name : String
  price : ℚ
  stock_quantity : ℤ
deriving DecidableEq

/-- A row of the `orders` table as inserted by the purchase
transaction (`main.py` lines 597-608): buyer, product, quantity,
total price, shipping address, plus the store-generated identifier
and creation timestamp returned by the `RETURNING` clause. -/
structure Order where
  order_id : Nat
  buyer_id : Nat
  product_id : Nat
  quantity : ℤ
  total_price : ℚ
  shipping_address : String
  created_at : Nat
deriving DecidableEq

/-- A row of the `transactions` table (the payment-split record), as
inserted by `main.py` lines 615-627 and `database.py`
`create_transaction`. -/
structure TransactionRow where
  transaction_id : Nat
  order_id : Nat
  artisan_id : Nat
  buyer_id : Nat
  product_id : Nat
  amount : ℚ
  commission_fee : ℚ
  artisan_payout : ℚ
deriving DecidableEq

/-- The structured detail payload of the purchase audit entry
(`main.py` lines 631-637). -/
structure AuditDetails where
  product_name : String
  quantity : ℤ
  total_price : ℚ
  old_stock : ℤ
  new_stock : ℤ
deriving DecidableEq

/-- A row of the `audit_logs` table as inserted by the purchase
transaction (`main.py` lines 639-648). -/
structure AuditLog where
  user_id : Nat
  action_type : String
  entity_type : String
  entity_id : Nat
  details : AuditDetails
  ip_address : String
deriving DecidableEq

/-- The persistent store: the four row shapes the coordinator
touches, together with the store-generated counters (serial
identifiers and the clock used for `created_at`). -/
@[ext] structure DBState where
  products : List Product
  orders : List Order
  transactions : List TransactionRow
  audit_logs : List AuditLog
  next_order_id : Nat
  next_transaction_id : Nat
  next_product_id : Nat
  now : Nat
deriving DecidableEq

/-- The server state visible to one call: the store plus the number
of free connections in the psycopg2 pool. -/
@[ext] structure SysState where
  db : DBState
  poolFree : Nat
deriving DecidableEq

/-- The body of a purchase request after pydantic validation
(`PurchaseRequest` in `main.py` lines 120-130). -/
structure PurchaseRequest where
  product_id : Nat
  quantity : ℤ
  shipping_address : String
deriving DecidableEq

/-- The JSON body returned on the success path of
`purchase_with_lock` (`main.py` lines 658-669). -/
structure SuccessBody where
  order_id : Nat
  transaction_id : Nat
  product_name : String
  quantity : ℤ
  total_price : ℚ
  commission_fee : ℚ
  artisan_payout : ℚ
  remaining_stock : ℤ
  created_at : String
deriving DecidableEq

/-- The caller-visible outcome of one purchase call: the tagged
results corresponding to the HTTP responses raised or returned by
`purchase_with_lock`. -/
inductive PurchaseResult where
  | success (body : SuccessBody)
  | notFound
  | lockContention
  | soldOut
  | insufficientStock (available : ℤ)
  | internalFailure
deriving DecidableEq

/-- Whether a result is the success outcome. -/
def isSuccess : PurchaseResult → Bool
  | .success _ => true
  | _ => false

/-- The HTTP status code attached to each outcome by
`purchase_with_lock` (`main.py`: 200 implicit on return, 404 line
559, 409 line 552, 400 lines 573 and 580, 500 line 681). -/
def httpStatus : PurchaseResult → Nat
  | .success _ => 200
  | .notFound => 404
  | .lockContention => 409
  | .soldOut => 400
  | .insufficientStock _ => 400
  | .internalFailure => 500

/-- The `detail` string attached to each non-success outcome by
`purchase_with_lock`. -/
def httpDetail : PurchaseResult → String
  | .success _ => ""
  | .notFound => "Product not found"
  | .lockContention =>
      "Product is currently being purchased by another customer. Please try again."
  | .soldOut => "SOLD OUT: This item is no longer available"
  | .insufficientStock available =>
      "Insufficient stock. Only " ++ toString available ++ " items available"
  | .internalFailure => "Purchase failed. Please try again."

/-- Outcome of the `FOR UPDATE NOWAIT` lock query, as seen by the
`try; except Exception` around `cursor.execute(lock_query)` in
`main.py` lines 543-554: the query succeeds, or it raises because
another in-flight transaction holds the row lock, or it raises some
other store error. -/
inductive LockOutcome where
  | acquired
  | heldByOther
  | otherError
deriving DecidableEq

/-- A write-phase statement of the purchase transaction at which a
store fault can be injected (`main.py` lines 589-651): the stock
update, the three inserts, or the commit itself. -/
inductive WriteStep where
  | stockUpdate
  | orderInsert
  | transactionInsert
  | auditInsert
  | commitStep
deriving DecidableEq

/-- The fault environment of one call: whether `getconn` raises,
how the lock query resolves, and an optional store fault injected at
one write-phase statement. -/
structure Env where
  getconnFails : Bool
  lockOutcome : LockOutcome
  writeFault : Option WriteStep
deriving DecidableEq

/-- `SELECT ... FROM products WHERE product_id = %s` followed by
`fetchone()`: the first stored row with the given identifier. -/
def findProduct (db : DBState) (pid : Nat) : Option Product :=
  db.products.find? (fun r => decide (r.product_id = pid))

/-- The floor of a rational, written so that it evaluates by
computation (it equals the mathematical floor, `ratFloor_eq`). -/
def ratFloor (x : ℚ) : ℤ := x.num / (x.den : ℤ)

lemma ratFloor_eq (x : ℚ) : ratFloor x = ⌊x⌋ := Rat.floor_def.symm

/-- Round-half-to-even of a rational, the rounding rule of Python
`round` used by both commission computations in the source. -/
def roundHalfEven (x : ℚ) : ℤ :=
  if x - ratFloor x < 1 / 2 then ratFloor x
  else if 1 / 2 < x - ratFloor x then ratFloor x + 1
  else if Even (ratFloor x) then ratFloor x else ratFloor x + 1

/-- Python `round(x, 2)`: round-half-to-even at two decimal
places. -/
def round2 (x : ℚ) : ℚ := (roundHalfEven (x * 100) : ℚ) / 100

/-- The platform commission rate, the literal `0.05` hard-coded both
in `main.py` line 611 and in `database.py` line 442. -/
def commission_rate : ℚ := 5 / 100

/-- `commission_fee = round(total_price * commission_rate, 2)`
(`main.py` line 612). -/
def purchase_commission_fee (total_price : ℚ) : ℚ :=
  round2 (total_price * commission_rate)

/-- `artisan_payout = round(total_price - commission_fee, 2)`
(`main.py` line 613). -/
def purchase_artisan_payout (total_price : ℚ) : ℚ :=
  round2 (total_price - purchase_commission_fee total_price)

/-- The external datetime library serializes the order creation
timestamp (`created_at.isoformat()`, `main.py` line 668) in ISO-8601
form; timestamps are abstract ticks here and the serialization is an
injective tagged rendering of the tick. -/
def isoformat (t : Nat) : String := "iso8601:" ++ toString t

/-- The body of the SQL transaction of `purchase_with_lock`
(`main.py` lines 536-683), given that a pool connection was
obtained.  Every aborted path calls `connection.rollback()` (or
propagates into the handler that does), so it returns the
pre-transaction store; the success path commits the accumulated
writes.  A store fault injected at a write-phase statement raises
into the generic `except Exception` handler, which rolls back and
reports the opaque 500 outcome. -/
def purchaseTransaction (env : Env) (buyer_id : Nat) (req : PurchaseRequest)
    (client_host : String) (db : DBState) : PurchaseResult × DBState :=
  match env.lockOutcome with
  | .heldByOther => (.lockContention, db)
  | .otherError => (.lockContention, db)
  | .acquired =>
    match findProduct db req.product_id with
    | none => (.notFound, db)
    | some p =>
      if p.stock_quantity < req.quantity then
        if p.stock_quantity = 0 then (.soldOut, db)
        else (.insufficientStock p.stock_quantity, db)
      else
        let total_price : ℚ := p.price * (req.quantity : ℚ)
        let new_stock : ℤ := p.stock_quantity - req.quantity
        if env.writeFault = some .stockUpdate then (.internalFailure, db) else
        let db1 : DBState :=
          { db with products := db.products.map (fun r =>
              if r.product_id = p.product_id then
                { r with stock_quantity := new_stock } else r) }
        if env.writeFault = some .orderInsert then (.internalFailure, db) else
        let order_id : Nat := db1.next_order_id
        let created_at : Nat := db1.now
        let db2 : DBState :=
          { db1 with
            orders := db1.orders ++
              [{ order_id := order_id, buyer_id := buyer_id,
                 product_id := p.product_id, quantity := req.quantity,
                 total_price := total_price,
                 shipping_address := req.shipping_address,
                 created_at := created_at }],
            next_order_id := db1.next_order_id + 1 }
        let commission_fee : ℚ := purchase_commission_fee total_price
        let artisan_payout : ℚ := purchase_artisan_payout total_price
        if env.writeFault = some .transactionInsert then (.internalFailure, db) else
        let transaction_id : Nat := db2.next_transaction_id
        let db3 : DBState :=
          { db2 with
            transactions := db2.transactions ++
              [{ transaction_id := transaction_id, order_id := order_id,
                 artisan_id := p.artisan_id, buyer_id := buyer_id,
                 product_id := p.product_id, amount := total_price,
                 commission_fee := commission_fee,
                 artisan_payout := artisan_payout }],
            next_transaction_id := db2.next_transaction_id + 1 }
        if env.writeFault = some .auditInsert then (.internalFailure, db) else
        let db4 : DBState :=
          { db3 with
            audit_logs := db3.audit_logs ++
              [{ user_id := buyer_id, action_type := "purchase",
                 entity_type := "order", entity_id := order_id,
                 details := { product_name := p.product_name,
                              quantity := req.quantity,
                              total_price := total_price,
                              old_stock := p.stock_quantity,
                              new_stock := new_stock },
                 ip_address := client_host }] }
        if env.writeFault = some .commitStep then (.internalFailure, db) else
        (.success { order_id := order_id, transaction_id := transaction_id,
                    product_name := p.product_name,
                    quantity := req.quantity, total_price := total_price,
                    commission_fee := commission_fee,
                    artisan_payout := artisan_payout,
                    remaining_stock := new_stock,
                    created_at := isoformat created_at }, db4)

/-- The endpoint `purchase_with_lock` of `main.py` lines 496-691.
If `getconn` raises (pool exhausted or environment fault), the
generic handler reports the 500 outcome with nothing acquired;
otherwise one pool connection is taken, the transaction body runs,
and the `finally` block returns the connection to the pool on every
exit path. -/
def purchase_with_lock (env : Env) (buyer_id : Nat) (req : PurchaseRequest)
    (client_host : String) (st : SysState) : PurchaseResult × SysState :=
  if env.getconnFails = true ∨ st.poolFree = 0 then (.internalFailure, st)
  else
    ((purchaseTransaction env buyer_id req client_host st.db).1,
     { db := (purchaseTransaction env buyer_id req client_host st.db).2,
       poolFree := st.poolFree - 1 + 1 })

/-- The commission computation of `create_transaction` in
`database.py` lines 424-456, together with the row it inserts
(`RETURNING`). -/
def create_transaction (db : DBState) (order_id artisan_id buyer_id product_id : Nat)
    (amount : ℚ) : TransactionRow × DBState :=
  let commission_fee : ℚ := round2 (amount * commission_rate)
  let artisan_payout : ℚ := round2 (amount - commission_fee)
  let row : TransactionRow :=
    { transaction_id := db.next_transaction_id, order_id := order_id,
      artisan_id := artisan_id, buyer_id := buyer_id,
      product_id := product_id, amount := amount,
      commission_fee := commission_fee, artisan_payout := artisan_payout }
  (row, { db with transactions := db.transactions ++ [row],
                  next_transaction_id := db.next_transaction_id + 1 })

/-- `ProductCreate.validate_price` (`main.py` lines 107-111): a
non-positive price is rejected before any handler code runs. -/
def validate_price (v : ℚ) : Option ℚ := if v ≤ 0 then none else some v

/-- `ProductCreate.validate_stock` (`main.py` lines 113-117): a
negative stock quantity is rejected before any handler code runs. -/
def validate_stock (v : ℤ) : Option ℤ := if v < 0 then none else some v

/-- `PurchaseRequest.validate_quantity` (`main.py` lines 126-130): a
non-positive quantity is rejected before any handler code runs. -/
def validate_quantity (v : ℤ) : Option ℤ := if v ≤ 0 then none else some v

/-- `create_product` of `database.py` lines 235-264, restricted to
the product fields the purchase core reads: inserts a product row
with a store-generated identifier. -/
def create_product (db : DBState) (artisan_id : Nat) (product_name : String)
    (price : ℚ) (stock_quantity : ℤ) : DBState :=
  { db with
    products := db.products ++
      [{ product_id := db.next_product_id, artisan_id := artisan_id,
         product_name := product_name, price := price,
         stock_quantity := stock_quantity }],
    next_product_id := db.next_product_id + 1 }

/-- The order row written by a successful purchase of product `p`
from store `db`. -/
def purchasedOrder (db : DBState) (buyer_id : Nat) (req : PurchaseRequest)
    (p : Product) : Order :=
  { order_id := db.next_order_id, buyer_id := buyer_id,
    product_id := p.product_id, quantity := req.quantity,
    total_price := p.price * (req.quantity : ℚ),
    shipping_address := req.shipping_address, created_at := db.now }

/-- The payment-split row written by a successful purchase. -/
def purchasedTransaction (db : DBState) (buyer_id : Nat) (req : PurchaseRequest)
    (p : Product) : TransactionRow :=
  { transaction_id := db.next_transaction_id, order_id := db.next_order_id,
    artisan_id := p.artisan_id, buyer_id := buyer_id,
    product_id := p.product_id, amount := p.price * (req.quantity : ℚ),
    commission_fee := purchase_commission_fee (p.price * (req.quantity : ℚ)),
    artisan_payout := purchase_artisan_payout (p.price * (req.quantity : ℚ)) }

/-- The audit row written by a successful purchase. -/
def purchasedAudit (db : DBState) (buyer_id : Nat) (req : PurchaseRequest)
    (client_host : String) (p : Product) : AuditLog :=
  { user_id := buyer_id, action_type := "purchase", entity_type := "order",
    entity_id := db.next_order_id,
    details := { product_name := p.product_name, quantity := req.quantity,
                 total_price := p.price * (req.quantity : ℚ),
                 old_stock := p.stock_quantity,
                 new_stock := p.stock_quantity - req.quantity },
    ip_address := client_host }

/-- The response body of a successful purchase. -/
def purchasedBody (db : DBState) (req : PurchaseRequest) (p : Product) :
    SuccessBody :=
  { order_id := db.next_order_id, transaction_id := db.next_transaction_id,
    product_name := p.product_name, quantity := req.quantity,
    total_price := p.price * (req.quantity : ℚ),
    commission_fee := purchase_commission_fee (p.price * (req.quantity : ℚ)),
    artisan_payout := purchase_artisan_payout (p.price * (req.quantity : ℚ)),
    remaining_stock := p.stock_quantity - req.quantity,
    created_at := isoformat db.now }

/-- The committed store after a successful purchase: the one stock
mutation on the product row, one appended order row, one appended
payment-split row, one appended audit row, and the advanced
counters. -/
def purchasedDb (db : DBState) (buyer_id : Nat) (req : PurchaseRequest)
    (client_host : String) (p : Product) : DBState :=
  { products := db.products.map (fun r =>
      if r.product_id = p.product_id then
        { r with stock_quantity := p.stock_quantity - req.quantity } else r),
    orders := db.orders ++ [purchasedOrder db buyer_id req p],
    transactions := db.transactions ++ [purchasedTransaction db buyer_id req p],
    audit_logs := db.audit_logs ++ [purchasedAudit db buyer_id req client_host p],
    next_order_id := db.next_order_id + 1,
    next_transaction_id := db.next_transaction_id + 1,
    next_product_id := db.next_product_id,
    now := db.now }

lemma roundHalfEven_intCast (k : ℤ) : roundHalfEven (k : ℚ) = k := by
  unfold roundHalfEven
  rw [ratFloor_eq, Int.floor_intCast]
  norm_num

lemma round2_eq_self {x : ℚ} (h : ∃ k : ℤ, x = (k : ℚ) / 100) :
    round2 x = x := by
  obtain ⟨k, rfl⟩ := h
  unfold round2
  rw [div_mul_cancel₀ _ (by norm_num : (100 : ℚ) ≠ 0), roundHalfEven_intCast]

lemma round2_den (x : ℚ) : ∃ m : ℤ, round2 x = (m : ℚ) / 100 :=
  ⟨roundHalfEven (x * 100), rfl⟩

lemma commission_add_payout {T : ℚ} (h : ∃ k : ℤ, T = (k : ℚ) / 100) :
    purchase_commission_fee T + purchase_artisan_payout T = T := by
  obtain ⟨m, hm⟩ := round2_den (T * commission_rate)
  have hc : purchase_commission_fee T = (m : ℚ) / 100 := hm
  obtain ⟨k, hk⟩ := h
  have h2 : purchase_artisan_payout T = T - purchase_commission_fee T := by
    unfold purchase_artisan_payout
    exact round2_eq_self ⟨k - m, by rw [hc, hk]; push_cast; ring⟩
  rw [h2]; ring

lemma purchase_success_eq (env : Env) (b : Nat) (req : PurchaseRequest)
    (host : String) (st : SysState) (p : Product)
    (hconn : env.getconnFails = false) (hpool : st.poolFree ≠ 0)
    (hlock : env.lockOutcome = .acquired) (hfault : env.writeFault = none)
    (hfind : findProduct st.db req.product_id = some p)
    (hstock : req.quantity ≤ p.stock_quantity) :
    purchase_with_lock env b req host st =
      (.success (purchasedBody st.db req p),
       { db := purchasedDb st.db b req host p, poolFree := st.poolFree }) := by
  have h1 : ¬ p.stock_quantity < req.quantity := not_lt.mpr hstock
  have h2 : st.poolFree - 1 + 1 = st.poolFree := by omega
  simp only [purchase_with_lock, purchaseTransaction, hconn, hlock, hfault, hfind,
    h1, h2, if_false, Bool.false_eq_true, false_or, purchasedBody, purchasedDb,
    purchasedOrder, purchasedTransaction, purchasedAudit, hpool, if_neg,
    reduceCtorEq, ite_false]

lemma purchase_pool_eq (env : Env) (b : Nat) (req : PurchaseRequest)
    (host : String) (st : SysState) :
    ((purchase_with_lock env b req host st).2).poolFree = st.poolFree := by
  unfold purchase_with_lock
  split
  · rfl
  · next h =>
    simp only [not_or] at h
    simp only []
    omega

lemma purchaseTransaction_db_of_not_success (env : Env) (b : Nat)
    (req : PurchaseRequest) (host : String) (db : DBState)
    (h : isSuccess (purchaseTransaction env b req host db).1 = false) :
    (purchaseTransaction env b req host db).2 = db := by
  unfold purchaseTransaction at h ⊢
  cases hE : env.lockOutcome with
  | heldByOther => simp [hE]
  | otherError => simp [hE]
  | acquired =>
    simp only [hE] at h ⊢
    cases hf : findProduct db req.product_id with
    | none => simp [hf]
    | some p =>
      simp only [hf] at h ⊢
      by_cases h1 : p.stock_quantity < req.quantity
      · simp only [h1, if_true] at h ⊢
        by_cases h2 : p.stock_quantity = 0 <;> simp [h2]
      · simp only [h1, if_false] at h ⊢
        cases hw : env.writeFault with
        | none => simp [hw, isSuccess] at h
        | some s => cases s <;> simp [hw]

lemma purchase_db_of_not_success (env : Env) (b : Nat) (req : PurchaseRequest)
    (host : String) (st : SysState)
    (h : isSuccess (purchase_with_lock env b req host st).1 = false) :
    (purchase_with_lock env b req host st).2.db = st.db := by
  by_cases hc : env.getconnFails = true ∨ st.poolFree = 0
  · simp [purchase_with_lock, hc]
  · simp only [purchase_with_lock, hc, if_false, ite_false] at h ⊢
    exact purchaseTransaction_db_of_not_success env b req host st.db h

lemma purchase_state_of_not_success (env : Env) (b : Nat) (req : PurchaseRequest)
    (host : String) (st : SysState)
    (h : isSuccess (purchase_with_lock env b req host st).1 = false) :
    (purchase_with_lock env b req host st).2 = st := by
  ext1
  · exact purchase_db_of_not_success env b req host st h
  · exact purchase_pool_eq env b req host st

/-- The fault-free environment: connection obtained, row lock
acquired at once, no store fault. -/
def envOk : Env := { getconnFails := false, lockOutcome := .acquired, writeFault := none }

/-- The environment of an attempt whose lock query raises because
another in-flight transaction holds the row lock. -/
def envContended : Env := { getconnFails := false, lockOutcome := .heldByOther, writeFault := none }

lemma purchase_contended_result (b : Nat) (req : PurchaseRequest) (host : String)
    (st : SysState) (hpool : st.poolFree ≠ 0) :
    (purchase_with_lock envContended b req host st).1 = .lockContention := by
  simp [purchase_with_lock, purchaseTransaction, envContended, hpool]

lemma purchase_contended (b : Nat) (req : PurchaseRequest) (host : String)
    (st : SysState) (hpool : st.poolFree ≠ 0) :
    purchase_with_lock envContended b req host st = (.lockContention, st) := by
  have h1 := purchase_contended_result b req host st hpool
  have h2 : isSuccess (purchase_with_lock envContended b req host st).1 = false := by
    rw [h1]; rfl
  have h3 := purchase_state_of_not_success envContended b req host st h2
  calc purchase_with_lock envContended b req host st
      = ((purchase_with_lock envContended b req host st).1,
         (purchase_with_lock envContended b req host st).2) := rfl
    _ = (.lockContention, st) := by rw [h1, h3]

lemma purchase_reject_result (env : Env) (b : Nat) (req : PurchaseRequest)
    (host : String) (st : SysState) (p : Product)
    (hconn : env.getconnFails = false) (hpool : st.poolFree ≠ 0)
    (hlock : env.lockOutcome = .acquired)
    (hfind : findProduct st.db req.product_id = some p)
    (hlt : p.stock_quantity < req.quantity) :
    (purchase_with_lock env b req host st).1 =
      (if p.stock_quantity = 0 then .soldOut
       else .insufficientStock p.stock_quantity) := by
  by_cases h2 : p.stock_quantity = 0
  · have hlt0 : (0 : ℤ) < req.quantity := by omega
    simp [purchase_with_lock, purchaseTransaction, hconn, hpool, hlock, hfind,
      hlt, h2, hlt0]
  · simp [purchase_with_lock, purchaseTransaction, hconn, hpool, hlock, hfind,
      hlt, h2]

lemma purchase_reject (env : Env) (b : Nat) (req : PurchaseRequest)
    (host : String) (st : SysState) (p : Product)
    (hconn : env.getconnFails = false) (hpool : st.poolFree ≠ 0)
    (hlock : env.lockOutcome = .acquired)
    (hfind : findProduct st.db req.product_id = some p)
    (hlt : p.stock_quantity < req.quantity) :
    purchase_with_lock env b req host st =
      ((if p.stock_quantity = 0 then .soldOut
        else .insufficientStock p.stock_quantity), st) := by
  have h1 := purchase_reject_result env b req host st p hconn hpool hlock hfind hlt
  have h2 : isSuccess (purchase_with_lock env b req host st).1 = false := by
    rw [h1]
    by_cases h2 : p.stock_quantity = 0 <;> simp [h2, isSuccess]
  have h3 := purchase_state_of_not_success env b req host st h2
  calc purchase_with_lock env b req host st
      = ((purchase_with_lock env b req host st).1,
         (purchase_with_lock env b req host st).2) := rfl
    _ = _ := by rw [h1, h3]

lemma findProduct_purchasedDb (db : DBState) (b : Nat) (req : PurchaseRequest)
    (host : String) (p : Product)
    (hfind : findProduct db req.product_id = some p) :
    findProduct (purchasedDb db b req host p) req.product_id =
      some { p with stock_quantity := p.stock_quantity - req.quantity } := by
  have hfind' : db.products.find?
      (fun r => decide (r.product_id = req.product_id)) = some p := hfind
  have hpid : p.product_id = req.product_id := by
    simpa using List.find?_some hfind'
  unfold findProduct purchasedDb
  rw [List.find?_map]
  have hcomp : ((fun r : Product => decide (r.product_id = req.product_id)) ∘
      (fun r : Product => if r.product_id = p.product_id then
        { r with stock_quantity := p.stock_quantity - req.quantity } else r)) =
      (fun r : Product => decide (r.product_id = req.product_id)) := by
    funext r
    by_cases h : r.product_id = p.product_id <;> simp [h]
  rw [hcomp, hfind']
  simp

lemma purchaseTransaction_acquired_ne_contention (env : Env) (b : Nat)
    (req : PurchaseRequest) (host : String) (db : DBState)
    (hlock : env.lockOutcome = .acquired) :
    (purchaseTransaction env b req host db).1 ≠ .lockContention := by
  unfold purchaseTransaction
  rw [hlock]
  cases hf : findProduct db req.product_id with
  | none => simp
  | some p =>
    by_cases h1 : p.stock_quantity < req.quantity
    · by_cases h2 : p.stock_quantity = 0
      · have hlt0 : (0 : ℤ) < req.quantity := by omega
        simp [h1, h2, hlt0]
      · simp [h1, h2]
    · cases hw : env.writeFault with
      | none => simp [h1, hw]
      | some s => cases s <;> simp [h1, hw]

lemma purchaseTransaction_products (env : Env) (b : Nat) (req : PurchaseRequest)
    (host : String) (db : DBState) :
    (purchaseTransaction env b req host db).2.products = db.products ∨
    ∃ p, findProduct db req.product_id = some p ∧
      req.quantity ≤ p.stock_quantity ∧
      (purchaseTransaction env b req host db).2.products =
        db.products.map (fun r =>
          if r.product_id = p.product_id then
            { r with stock_quantity := p.stock_quantity - req.quantity } else r) := by
  unfold purchaseTransaction
  cases hE : env.lockOutcome with
  | heldByOther => left; rfl
  | otherError => left; rfl
  | acquired =>
    cases hf : findProduct db req.product_id with
    | none => left; rfl
    | some p =>
      by_cases h1 : p.stock_quantity < req.quantity
      · left
        by_cases h2 : p.stock_quantity = 0
        · have hlt0 : (0 : ℤ) < req.quantity := by omega
          simp [h1, h2, hlt0]
        · simp [h1, h2]
      · cases hw : env.writeFault with
        | none =>
          right
          exact ⟨p, rfl, not_lt.mp h1, by simp [h1, hw]⟩
        | some s =>
          left
          cases s <;> simp [h1, hw]

lemma purchase_products (env : Env) (b : Nat) (req : PurchaseRequest)
    (host : String) (st : SysState) :
    (purchase_with_lock env b req host st).2.db.products = st.db.products ∨
    ∃ p, findProduct st.db req.product_id = some p ∧
      req.quantity ≤ p.stock_quantity ∧
      (purchase_with_lock env b req host st).2.db.products =
        st.db.products.map (fun r =>
          if r.product_id = p.product_id then
            { r with stock_quantity := p.stock_quantity - req.quantity } else r) := by
  by_cases hc : env.getconnFails = true ∨ st.poolFree = 0
  · left; simp [purchase_with_lock, hc]
  · have h := purchaseTransaction_products env b req host st.db
    simpa [purchase_with_lock, hc] using h

/-- The operations of the running system that touch product stock:
product creation (through the pydantic validators and
`create_product`) and the locked purchase.  Catalog reads and order
status updates never write `stock_quantity`. -/
inductive Op where
  | createProductOp (artisan_id : Nat) (product_name : String) (price : ℚ)
      (stock_quantity : ℤ)
  | purchaseOp (env : Env) (buyer_id : Nat) (product_id : Nat) (quantity : ℤ)
      (shipping_address : String) (client_host : String)

/-- One inbound request: validation happens before any handler code
runs, and a validation failure leaves the store untouched. -/
def applyOp (st : SysState) : Op → SysState
  | .createProductOp aid name price stock =>
    match validate_price price with
    | none => st
    | some price =>
      match validate_stock stock with
      | none => st
      | some stock => { st with db := create_product st.db aid name price stock }
  | .purchaseOp env buyer pid q addr host =>
    match validate_quantity q with
    | none => st
    | some q =>
      (purchase_with_lock env buyer
        { product_id := pid, quantity := q, shipping_address := addr } host st).2

/-- The stock invariant: every stored product row has non-negative
stock. -/
def stockInv (db : DBState) : Prop := ∀ p ∈ db.products, 0 ≤ p.stock_quantity

instance (db : DBState) : Decidable (stockInv db) := by
  unfold stockInv; infer_instance

lemma applyOp_stockInv (st : SysState) (op : Op) (h : stockInv st.db) :
    stockInv ((applyOp st op).db) := by
  cases op with
  | createProductOp aid name price stock =>
    simp only [applyOp]
    cases hp : validate_price price with
    | none => exact h
    | some price' =>
      cases hs : validate_stock stock with
      | none => exact h
      | some stock' =>
        have h0 : 0 ≤ stock' := by
          unfold validate_stock at hs
          split at hs
          · exact absurd hs (by simp)
          · next hneg => cases hs; omega
        intro r hr
        simp only [create_product, List.mem_append, List.mem_singleton] at hr
        rcases hr with hr | rfl
        · exact h r hr
        · exact h0
  | purchaseOp env buyer pid q addr host =>
    simp only [applyOp]
    cases hq : validate_quantity q with
    | none => exact h
    | some q' =>
      rcases purchase_products env buyer
          { product_id := pid, quantity := q', shipping_address := addr }
          host st with hsame | ⟨p, hfind, hle, hmap⟩
      · intro r hr
        rw [hsame] at hr
        exact h r hr
      · intro r hr
        rw [hmap] at hr
        simp only [List.mem_map] at hr
        obtain ⟨r0, hr0, rfl⟩ := hr
        by_cases hid : r0.product_id = p.product_id
        · simp only [hid, if_true]
          have hle' : q' ≤ p.stock_quantity := hle
          omega
        · simp only [hid, if_false, ite_false]
          exact h r0 hr0

/-- A pooled store connection as seen by the `get_cursor` context
manager: the durable (committed) store, the pending transaction view
on this connection, and whether a cursor is open on it. -/
structure Conn (σ : Type) where
  committed : σ
  pending : σ
  cursorOpen : Bool

/-- The `get_cursor` context manager of `DatabaseManager`
(`database.py` lines 86-109).  The wrapped statements `body` run on
a fresh cursor against the transaction view; if they raise, the
transaction is rolled back and the exception re-raised; otherwise
the transaction is committed exactly when `commit` was requested;
the cursor is closed in either case (the `finally` block). -/
def get_cursor {σ ε α : Type} (commit : Bool) (body : σ → Except ε (σ × α))
    (c : Conn σ) : Except ε α × Conn σ :=
  match body c.pending with
  | .error e =>
      (.error e,
       { committed := c.committed, pending := c.committed, cursorOpen := false })
  | .ok (s, a) =>
      if commit then
        (.ok a, { committed := s, pending := s, cursorOpen := false })
      else
        (.ok a, { committed := c.committed, pending := s, cursorOpen := false })

/-- A set of concurrent purchase attempts on one product, resolved
by the row lock into a serial schedule: each entry records whether
the attempt acquired the `FOR UPDATE NOWAIT` lock (and then ran the
whole transaction serially, the store guaranteeing a serial view of
the locked row) or failed immediately with lock contention because
an executing attempt held the lock. -/
def runConcurrent (buyer_id : Nat) (req : PurchaseRequest) (host : String)
    (st : SysState) : List Bool → List PurchaseResult × SysState
  | [] => ([], st)
  | acq :: rest =>
    let step := purchase_with_lock (if acq then envOk else envContended)
      buyer_id req host st
    let restRun := runConcurrent buyer_id req host step.2 rest
    (step.1 :: restRun.1, restRun.2)

/-- The number of attempts that reported success. -/
def successCount (rs : List PurchaseResult) : Nat := (rs.filter isSuccess).length

/-- A complete resolution of concurrent attempts is well formed:
`FOR UPDATE NOWAIT` contention means some other attempt held the
lock while executing, so if any attempt reports contention, some
attempt executed. -/
def wfSchedule (sched : List Bool) : Prop := false ∈ sched → true ∈ sched

lemma runConcurrent_spec (buyer_id : Nat) (pid : Nat) (addr host : String)
    (q : ℤ) (hq : 1 ≤ q) :
    ∀ (sched : List Bool) (st : SysState) (p : Product),
      st.poolFree ≠ 0 →
      findProduct st.db pid = some p →
      0 ≤ p.stock_quantity →
      (runConcurrent buyer_id ⟨pid, q, addr⟩ host st sched).2.poolFree = st.poolFree ∧
      (runConcurrent buyer_id ⟨pid, q, addr⟩ host st sched).1.length = sched.length ∧
      ∃ p', findProduct (runConcurrent buyer_id ⟨pid, q, addr⟩ host st sched).2.db pid
          = some p' ∧
        p'.product_id = p.product_id ∧
        p'.price = p.price ∧
        p'.stock_quantity = p.stock_quantity -
          (successCount (runConcurrent buyer_id ⟨pid, q, addr⟩ host st sched).1 : ℤ) * q ∧
        (successCount (runConcurrent buyer_id ⟨pid, q, addr⟩ host st sched).1 : ℤ) * q
          ≤ p.stock_quantity ∧
        (sched.all (fun x => x) = true →
          successCount (runConcurrent buyer_id ⟨pid, q, addr⟩ host st sched).1 =
            min sched.length (p.stock_quantity / q).toNat) := by
  intro sched
  induction sched with
  | nil =>
    intro st p hpool hfind hS
    refine ⟨rfl, rfl, p, hfind, rfl, rfl, ?_, ?_, ?_⟩
    · simp [runConcurrent, successCount]
    · simpa [runConcurrent, successCount] using hS
    · simp [runConcurrent, successCount]
  | cons acq rest ih =>
    intro st p hpool hfind hS
    cases acq with
    | false =>
      have hstep := purchase_contended buyer_id ⟨pid, q, addr⟩ host st hpool
      obtain ⟨h1, h2, p', hfind', hpid', hprice', hstock', hbound', hall'⟩ :=
        ih st p hpool hfind hS
      refine ⟨?_, ?_, p', ?_, hpid', hprice', ?_, ?_, ?_⟩
      · simpa [runConcurrent, hstep] using h1
      · simpa [runConcurrent, hstep] using h2
      · simpa [runConcurrent, hstep] using hfind'
      · simpa [runConcurrent, hstep, successCount, isSuccess] using hstock'
      · simpa [runConcurrent, hstep, successCount, isSuccess] using hbound'
      · simp [runConcurrent, hstep]
    | true =>
      by_cases hge : q ≤ p.stock_quantity
      · have hstep := purchase_success_eq envOk buyer_id ⟨pid, q, addr⟩ host st p
          rfl hpool rfl rfl hfind hge
        have hfind1 := findProduct_purchasedDb st.db buyer_id ⟨pid, q, addr⟩ host p hfind
        have hS1 : (0 : ℤ) ≤ p.stock_quantity - q := by omega
        obtain ⟨h1, h2, p', hfind', hpid', hprice', hstock', hbound', hall'⟩ :=
          ih { db := purchasedDb st.db buyer_id ⟨pid, q, addr⟩ host p,
               poolFree := st.poolFree }
            { p with stock_quantity := p.stock_quantity - q } hpool hfind1 hS1
        set l := (runConcurrent buyer_id ⟨pid, q, addr⟩ host
          { db := purchasedDb st.db buyer_id ⟨pid, q, addr⟩ host p,
            poolFree := st.poolFree } rest).1 with hl
        have hcnt : ∀ body, successCount (PurchaseResult.success body :: l) =
            successCount l + 1 := by
          intro body; simp [successCount, isSuccess]
        refine ⟨?_, ?_, p', ?_, hpid', hprice', ?_, ?_, ?_⟩
        · simpa [runConcurrent, hstep] using h1
        · simpa [runConcurrent, hstep] using h2
        · simpa [runConcurrent, hstep] using hfind'
        · simp only [runConcurrent, hstep, ← hl, if_true, hcnt]
          have hmul : ((successCount l + 1 : ℕ) : ℤ) * q =
              (successCount l : ℤ) * q + q := by push_cast; ring
          rw [hmul]
          have := hstock'
          simp only at this
          omega
        · simp only [runConcurrent, hstep, ← hl, if_true, hcnt]
          have hmul : ((successCount l + 1 : ℕ) : ℤ) * q =
              (successCount l : ℤ) * q + q := by push_cast; ring
          rw [hmul]
          have := hbound'
          simp only at this
          omega
        · intro hall
          have hall2 : rest.all (fun x => x) = true := by simpa using hall
          have hc := hall' hall2
          have hq0 : q ≠ 0 := by omega
          have hdiv : (p.stock_quantity - q) / q = p.stock_quantity / q - 1 := by
            have h := Int.add_mul_ediv_right p.stock_quantity (-1) hq0
            rw [show p.stock_quantity + -1 * q = p.stock_quantity - q by ring] at h
            rw [h]; ring
          have hone : 1 ≤ p.stock_quantity / q :=
            (Int.le_ediv_iff_mul_le (by omega : (0 : ℤ) < q)).mpr (by omega)
          rw [hdiv] at hc
          simp only [runConcurrent, hstep, ← hl, if_true, hcnt, List.length_cons]
          have := h2
          simp only at this
          generalize hm : p.stock_quantity / q = m at hc hone
          omega
      · have hlt : p.stock_quantity < q := not_le.mp hge
        have hstep := purchase_reject envOk buyer_id ⟨pid, q, addr⟩ host st p
          rfl hpool rfl hfind hlt
        obtain ⟨h1, h2, p', hfind', hpid', hprice', hstock', hbound', hall'⟩ :=
          ih st p hpool hfind hS
        set l := (runConcurrent buyer_id ⟨pid, q, addr⟩ host st rest).1 with hl
        have hcnt : successCount
            ((if p.stock_quantity = 0 then PurchaseResult.soldOut
              else PurchaseResult.insufficientStock p.stock_quantity) :: l) =
            successCount l := by
          by_cases h0 : p.stock_quantity = 0 <;> simp [h0, successCount, isSuccess]
        refine ⟨?_, ?_, p', ?_, hpid', hprice', ?_, ?_, ?_⟩
        · simpa [runConcurrent, hstep] using h1
        · simpa [runConcurrent, hstep] using h2
        · simpa [runConcurrent, hstep] using hfind'
        · simp only [runConcurrent, hstep, ← hl, if_true, hcnt]
          exact hstock'
        · simp only [runConcurrent, hstep, ← hl, if_true, hcnt]
          exact hbound'
        · intro hall
          have hall2 : rest.all (fun x => x) = true := by simpa using hall
          have hc := hall' hall2
          have hdiv : p.stock_quantity / q = 0 := Int.ediv_eq_zero_of_lt hS hlt
          rw [hdiv] at hc
          simp only [runConcurrent, hstep, ← hl, if_true, hcnt, List.length_cons]
          have := h2
          simp only at this
          omega

/-- Concrete product used by witnesses: stock 5, unit price 100. -/
def prod0 : Product :=
  { product_id := 1, artisan_id := 7, product_name := "Nakshi Kantha",
    price := 100, stock_quantity := 5 }

/-- Concrete store used by witnesses. -/
def db0 : DBState :=
  { products := [prod0], orders := [], transactions := [], audit_logs := [],
    next_order_id := 1, next_transaction_id := 1, next_product_id := 2, now := 3 }

/-- Concrete server state used by witnesses. -/
def st0 : SysState := { db := db0, poolFree := 10 }

/-- Concrete validated purchase request used by witnesses. -/
def req0 : PurchaseRequest :=
  { product_id := 1, quantity := 2, shipping_address := "12 Lake Road, Dhaka" }

/-- Environment with a store fault injected at the payment-split
insert. -/
def envFaultTxn : Env :=
  { getconnFails := false, lockOutcome := .acquired,
    writeFault := some .transactionInsert }

/-- Environment whose lock query raises a store error that is not a
held row lock. -/
def envLockOtherError : Env :=
  { getconnFails := false, lockOutcome := .otherError, writeFault := none }

lemma purchase_result_eq_txn (env : Env) (b : Nat) (req : PurchaseRequest)
    (host : String) (st : SysState)
    (hconn : env.getconnFails = false) (hpool : st.poolFree ≠ 0) :
    (purchase_with_lock env b req host st).1 =
      (purchaseTransaction env b req host st.db).1 := by
  simp [purchase_with_lock, hconn, hpool]

lemma purchase_fault_result (env : Env) (b : Nat) (req : PurchaseRequest)
    (host : String) (st : SysState) (p : Product)
    (hconn : env.getconnFails = false) (hpool : st.poolFree ≠ 0)
    (hlock : env.lockOutcome = .acquired)
    (hfind : findProduct st.db req.product_id = some p)
    (hge : req.quantity ≤ p.stock_quantity)
    (s : WriteStep) (hfault : env.writeFault = some s) :
    (purchase_with_lock env b req host st).1 = .internalFailure := by
  have h1 : ¬ p.stock_quantity < req.quantity := not_lt.mpr hge
  cases s <;>
    simp [purchase_with_lock, purchaseTransaction, hconn, hpool, hlock, hfind,
      h1, hfault]

/-- C1: a purchase of an existing product with stock `S`, unit price
`P` and requested quantity `q`, `1 ≤ q ≤ S`, in a fault-free
environment, returns Success carrying the new order id, the
payment-split id, the product name, quantity `q`,
`total_price = P * q`, the commission fee, the artisan payout,
`remaining_stock = S - q`, and the ISO-8601 rendering of the order
creation timestamp; and the committed store shows exactly one stock
mutation (the product row set to `S - q`), one appended order row,
one appended payment-split row, and one appended audit row. -/
theorem C1_success_response_and_writes (env : Env) (buyer_id : Nat)
    (req : PurchaseRequest) (host : String) (st : SysState) (p : Product)
    (hconn : env.getconnFails = false) (hpool : st.poolFree ≠ 0)
    (hlock : env.lockOutcome = .acquired) (hfault : env.writeFault = none)
    (hfind : findProduct st.db req.product_id = some p)
    (hq1 : validate_quantity req.quantity = some req.quantity)
    (hq2 : req.quantity ≤ p.stock_quantity) :
    (purchase_with_lock env buyer_id req host st).1 =
      .success
        { order_id := st.db.next_order_id,
          transaction_id := st.db.next_transaction_id,
          product_name := p.product_name,
          quantity := req.quantity,
          total_price := p.price * (req.quantity : ℚ),
          commission_fee := purchase_commission_fee (p.price * (req.quantity : ℚ)),
          artisan_payout := purchase_artisan_payout (p.price * (req.quantity : ℚ)),
          remaining_stock := p.stock_quantity - req.quantity,
          created_at := isoformat st.db.now } ∧
    (purchase_with_lock env buyer_id req host st).2.db =
      { products := st.db.products.map (fun r =>
          if r.product_id = p.product_id then
            { r with stock_quantity := p.stock_quantity - req.quantity } else r),
        orders := st.db.orders ++ [purchasedOrder st.db buyer_id req p],
        transactions := st.db.transactions ++
          [purchasedTransaction st.db buyer_id req p],
        audit_logs := st.db.audit_logs ++
          [purchasedAudit st.db buyer_id req host p],
        next_order_id := st.db.next_order_id + 1,
        next_transaction_id := st.db.next_transaction_id + 1,
        next_product_id := st.db.next_product_id,
        now := st.db.now } := by
  have h := purchase_success_eq env buyer_id req host st p hconn hpool hlock
    hfault hfind hq2
  rw [h]
  exact ⟨rfl, rfl⟩

/-- Witness for C1 at a concrete input: product with stock 5 and
price 100, quantity 2. -/
theorem C1_witness :
    findProduct st0.db req0.product_id = some prod0 ∧
    (1 : ℤ) ≤ req0.quantity ∧ req0.quantity ≤ prod0.stock_quantity ∧
    (purchase_with_lock envOk 2 req0 "203.0.113.9" st0).1 =
      .success (purchasedBody st0.db req0 prod0) ∧
    (purchase_with_lock envOk 2 req0 "203.0.113.9" st0).2.db =
      purchasedDb st0.db 2 req0 "203.0.113.9" prod0 := by
  have h := C1_success_response_and_writes envOk 2 req0 "203.0.113.9" st0 prod0
    rfl (by decide) rfl rfl (by decide) (by decide) (by decide)
  exact ⟨by decide, by decide, by decide, h.1, h.2⟩

/-- C3: every purchase call that does not return Success leaves the
persistent store unchanged: same product rows (hence same stock),
and no order, payment-split, or audit row created. -/
theorem C3_abort_leaves_store_unchanged (env : Env) (buyer_id : Nat)
    (req : PurchaseRequest) (host : String) (st : SysState)
    (h : isSuccess (purchase_with_lock env buyer_id req host st).1 = false) :
    (purchase_with_lock env buyer_id req host st).2.db = st.db :=
  purchase_db_of_not_success env buyer_id req host st h

/-- Witness for C3 at a concrete input: a store fault injected at
the payment-split insert, after the stock update already ran inside
the transaction. -/
theorem C3_witness :
    isSuccess (purchase_with_lock envFaultTxn 2 req0 "203.0.113.9" st0).1 = false ∧
    (purchase_with_lock envFaultTxn 2 req0 "203.0.113.9" st0).2.db = st0.db :=
  ⟨by decide,
   C3_abort_leaves_store_unchanged envFaultTxn 2 req0 "203.0.113.9" st0 (by decide)⟩

/-- C8: the commission and payout computed inline by the purchase
transaction and those computed by the `create_transaction` helper
agree for every amount: both use the constant rate `0.05` and the
same rounding rule. -/
theorem C8_commission_paths_agree (db : DBState)
    (order_id artisan_id buyer_id product_id : Nat) (amount : ℚ) :
    (create_transaction db order_id artisan_id buyer_id product_id
        amount).1.commission_fee = purchase_commission_fee amount ∧
    (create_transaction db order_id artisan_id buyer_id product_id
        amount).1.artisan_payout = purchase_artisan_payout amount :=
  ⟨rfl, rfl⟩

/-- C9: on every exit path of the purchase operation, the pool
connection taken by the call is returned: the number of free pool
connections after the call equals the number before it, for every
fault environment (success, not-found, lock contention, stock
rejections, injected store faults, and failed connection
acquisition itself). -/
theorem C9_connection_released_on_every_path (env : Env) (buyer_id : Nat)
    (req : PurchaseRequest) (host : String) (st : SysState) :
    ((purchase_with_lock env buyer_id req host st).2).poolFree = st.poolFree :=
  purchase_pool_eq env buyer_id req host st

/-- C10: the `get_cursor` context manager is atomic at the
connection level: on success of the wrapped statements the
transaction is committed exactly when `commit = true` was requested,
on an exception the transaction is rolled back and the exception
re-raised, and the cursor is closed in either case. -/
theorem C10_get_cursor_atomic {σ ε α : Type} (commit : Bool)
    (body : σ → Except ε (σ × α)) (c : Conn σ) :
    (∀ e, body c.pending = .error e →
       (get_cursor commit body c).1 = .error e ∧
       (get_cursor commit body c).2.committed = c.committed ∧
       (get_cursor commit body c).2.pending = c.committed ∧
       (get_cursor commit body c).2.cursorOpen = false) ∧
    (∀ s a, body c.pending = .ok (s, a) →
       (get_cursor commit body c).1 = .ok a ∧
       (commit = true → (get_cursor commit body c).2.committed = s) ∧
       (commit = false → (get_cursor commit body c).2.committed = c.committed) ∧
       (get_cursor commit body c).2.cursorOpen = false) := by
  constructor
  · intro e he
    simp [get_cursor, he]
  · intro s a hok
    cases commit <;> simp [get_cursor, hok]

/-- A body that executes an update successfully (used by the C10
witness). -/
def bodyOk : ℤ → Except String (ℤ × ℤ) := fun s => .ok (s + 1, 42)

/-- A body whose statement raises (used by the C10 witness). -/
def bodyErr : ℤ → Except String (ℤ × ℤ) := fun _ => .error "boom"

/-- A fresh connection (used by the C10 witness). -/
def conn0 : Conn ℤ := { committed := 0, pending := 0, cursorOpen := false }

/-- Witness for C10 at concrete inputs: a committing success, a
non-committing success, and a raising body. -/
theorem C10_witness :
    (get_cursor true bodyOk conn0).2.committed = 1 ∧
    (get_cursor false bodyOk conn0).2.committed = 0 ∧
    (get_cursor true bodyErr conn0).1 = .error "boom" ∧
    (get_cursor true bodyErr conn0).2.committed = 0 := by
  refine ⟨?_, ?_, ?_, ?_⟩
  · exact ((C10_get_cursor_atomic true bodyOk conn0).2 1 42 rfl).2.1 rfl
  · exact ((C10_get_cursor_atomic false bodyOk conn0).2 1 42 rfl).2.2.1 rfl
  · exact ((C10_get_cursor_atomic true bodyErr conn0).1 "boom" rfl).1
  · exact ((C10_get_cursor_atomic true bodyErr conn0).1 "boom" rfl).2.1

/-- Concrete product with one unit of stock (used by witnesses). -/
def prodLow : Product :=
  { product_id := 1, artisan_id := 7, product_name := "Clay Pot",
    price := 30, stock_quantity := 1 }

/-- Concrete store holding `prodLow` (used by witnesses). -/
def stLow : SysState :=
  { db := { products := [prodLow], orders := [], transactions := [],
            audit_logs := [], next_order_id := 1, next_transaction_id := 1,
            next_product_id := 2, now := 3 },
    poolFree := 10 }

/-- C2: once the product row is found and locked, the stock
comparison classifies the outcome exactly: zero stock aborts with
SoldOut (HTTP 400, detail containing "SOLD OUT"); positive stock
below the requested quantity aborts with InsufficientStock (HTTP
400, detail containing the available quantity); and sufficient stock
proceeds to the write phase. -/
theorem C2_stock_classification (env : Env) (buyer_id : Nat)
    (req : PurchaseRequest) (host : String) (st : SysState) (p : Product)
    (hconn : env.getconnFails = false) (hpool : st.poolFree ≠ 0)
    (hlock : env.lockOutcome = .acquired)
    (hfind : findProduct st.db req.product_id = some p)
    (hq : 1 ≤ req.quantity) :
    (p.stock_quantity = 0 →
      (purchase_with_lock env buyer_id req host st).1 = .soldOut ∧
      httpStatus .soldOut = 400 ∧
      (∃ pre post, httpDetail .soldOut = pre ++ "SOLD OUT" ++ post)) ∧
    (0 < p.stock_quantity → p.stock_quantity < req.quantity →
      (purchase_with_lock env buyer_id req host st).1 =
        .insufficientStock p.stock_quantity ∧
      httpStatus (.insufficientStock p.stock_quantity) = 400 ∧
      (∃ pre post, httpDetail (.insufficientStock p.stock_quantity) =
        pre ++ toString p.stock_quantity ++ post)) ∧
    (req.quantity ≤ p.stock_quantity →
      (purchase_with_lock env buyer_id req host st).1 = .internalFailure ∨
      isSuccess (purchase_with_lock env buyer_id req host st).1 = true) := by
  refine ⟨?_, ?_, ?_⟩
  · intro h0
    have hr := purchase_reject_result env buyer_id req host st p hconn hpool
      hlock hfind (by omega)
    rw [hr]
    exact ⟨by simp [h0], rfl,
      "", ": This item is no longer available", by decide⟩
  · intro hpos hlt
    have hr := purchase_reject_result env buyer_id req host st p hconn hpool
      hlock hfind hlt
    rw [hr]
    have h0 : ¬ p.stock_quantity = 0 := by omega
    exact ⟨by simp [h0], rfl,
      "Insufficient stock. Only ", " items available", rfl⟩
  · intro hge
    cases hfault : env.writeFault with
    | none =>
      right
      rw [purchase_success_eq env buyer_id req host st p hconn hpool hlock
        hfault hfind hge]
      rfl
    | some s =>
      left
      exact purchase_fault_result env buyer_id req host st p hconn hpool hlock
        hfind hge s hfault

/-- Witness for C2 at a concrete input: one unit of stock, two
requested, reporting InsufficientStock with the available
quantity. -/
theorem C2_witness :
    findProduct stLow.db req0.product_id = some prodLow ∧
    (purchase_with_lock envOk 2 req0 "203.0.113.9" stLow).1 =
      .insufficientStock prodLow.stock_quantity := by
  have h := C2_stock_classification envOk 2 req0 "203.0.113.9" stLow prodLow
    rfl (by decide) rfl (by decide) (by decide)
  exact ⟨by decide, (h.2.1 (by decide) (by decide)).1⟩

/-- C4: on the success path, the recorded and returned amounts
satisfy `commission_fee = round2 (total_price * commission_rate)`
and `artisan_payout = round2 (total_price - commission_fee)`, and
the split adds back up exactly: `commission_fee + artisan_payout =
total_price`, provided the unit price is a 2-decimal currency
value. -/
theorem C4_split_invariant (env : Env) (buyer_id : Nat)
    (req : PurchaseRequest) (host : String) (st : SysState) (p : Product)
    (body : SuccessBody)
    (hconn : env.getconnFails = false) (hpool : st.poolFree ≠ 0)
    (hlock : env.lockOutcome = .acquired) (hfault : env.writeFault = none)
    (hfind : findProduct st.db req.product_id = some p)
    (hq2 : req.quantity ≤ p.stock_quantity)
    (hprice : ∃ k : ℤ, p.price = (k : ℚ) / 100)
    (hbody : (purchase_with_lock env buyer_id req host st).1 = .success body) :
    body.commission_fee = round2 (body.total_price * commission_rate) ∧
    body.artisan_payout = round2 (body.total_price - body.commission_fee) ∧
    body.commission_fee + body.artisan_payout = body.total_price := by
  have h := purchase_success_eq env buyer_id req host st p hconn hpool hlock
    hfault hfind hq2
  rw [h] at hbody
  simp only [PurchaseResult.success.injEq] at hbody
  subst hbody
  obtain ⟨k, hk⟩ := hprice
  refine ⟨rfl, rfl, ?_⟩
  exact commission_add_payout
    ⟨k * req.quantity, by rw [hk]; push_cast; ring⟩

/-- Witness for C4 at a concrete input: stock 5, price 100,
quantity 2, total price 200. -/
theorem C4_witness :
    (∃ k : ℤ, prod0.price = (k : ℚ) / 100) ∧
    req0.quantity ≤ prod0.stock_quantity ∧
    ((purchasedBody st0.db req0 prod0).commission_fee =
       round2 ((purchasedBody st0.db req0 prod0).total_price * commission_rate) ∧
     (purchasedBody st0.db req0 prod0).artisan_payout =
       round2 ((purchasedBody st0.db req0 prod0).total_price -
         (purchasedBody st0.db req0 prod0).commission_fee) ∧
     (purchasedBody st0.db req0 prod0).commission_fee +
       (purchasedBody st0.db req0 prod0).artisan_payout =
       (purchasedBody st0.db req0 prod0).total_price) := by
  have h := C4_split_invariant envOk 2 req0 "203.0.113.9" st0 prod0
    (purchasedBody st0.db req0 prod0) rfl (by decide) rfl rfl (by decide)
    (by decide) ⟨10000, by norm_num [prod0]⟩ (by
      rw [purchase_success_eq envOk 2 req0 "203.0.113.9" st0 prod0 rfl
        (by decide) rfl rfl (by decide) (by decide)])
  exact ⟨⟨10000, by norm_num [prod0]⟩, by decide, h⟩

/-- C5 as stated is false on this code: the lock-step handler in
`main.py` lines 543-554 catches every exception raised by the lock
query, so a store error there that is not a held row lock is also
reported as LockContention (409) instead of InternalFailure (500).
This closed counterexample exhibits it at a concrete input. -/
theorem C5_counterexample :
    envLockOtherError.lockOutcome ≠ LockOutcome.heldByOther ∧
    (purchase_with_lock envLockOtherError 2 req0 "203.0.113.9" st0).1 =
      .lockContention ∧
    (purchase_with_lock envLockOtherError 2 req0 "203.0.113.9" st0).1 ≠
      .internalFailure := by decide

/-- C5 amended: LockContention (409) is reported exactly when the
lock query raises — whether because another in-flight transaction
holds the row lock or because of any other store error raised by
that query; a store fault raised after the lock step (in the write
phase) is reported as InternalFailure, HTTP 500, with the generic
detail and no internal error text leaked. -/
theorem C5_amended (env : Env) (buyer_id : Nat) (req : PurchaseRequest)
    (host : String) (st : SysState)
    (hconn : env.getconnFails = false) (hpool : st.poolFree ≠ 0) :
    ((purchase_with_lock env buyer_id req host st).1 = .lockContention ↔
      env.lockOutcome = .heldByOther ∨ env.lockOutcome = .otherError) ∧
    (∀ p, env.lockOutcome = .acquired →
      findProduct st.db req.product_id = some p →
      req.quantity ≤ p.stock_quantity →
      env.writeFault.isSome = true →
      (purchase_with_lock env buyer_id req host st).1 = .internalFailure ∧
      httpStatus .internalFailure = 500 ∧
      httpDetail .internalFailure = "Purchase failed. Please try again.") := by
  constructor
  · rw [purchase_result_eq_txn env buyer_id req host st hconn hpool]
    constructor
    · intro hres
      cases hE : env.lockOutcome with
      | heldByOther => exact Or.inl rfl
      | otherError => exact Or.inr rfl
      | acquired =>
        exact absurd hres
          (purchaseTransaction_acquired_ne_contention env buyer_id req host
            st.db hE)
    · intro hE
      rcases hE with hE | hE <;> simp [purchaseTransaction, hE]
  · intro p hlock hfind hge hfault
    obtain ⟨s, hs⟩ := Option.isSome_iff_exists.mp hfault
    exact ⟨purchase_fault_result env buyer_id req host st p hconn hpool hlock
      hfind hge s hs, rfl, rfl⟩

/-- Witness for the amended C5 at a concrete input: a fault at the
payment-split insert is reported as the opaque 500 outcome, and is
not classified as lock contention. -/
theorem C5_witness :
    ((purchase_with_lock envFaultTxn 2 req0 "203.0.113.9" st0).1 =
        .lockContention ↔
      envFaultTxn.lockOutcome = .heldByOther ∨
      envFaultTxn.lockOutcome = .otherError) ∧
    (purchase_with_lock envFaultTxn 2 req0 "203.0.113.9" st0).1 =
      .internalFailure := by
  have h := C5_amended envFaultTxn 2 req0 "203.0.113.9" st0 rfl (by decide)
  exact ⟨h.1, (h.2 prod0 rfl (by decide) (by decide) rfl).1⟩

/-- C6: starting from any store in which every product row has
non-negative stock, every sequence of system operations that touch
stock (validated product creation and locked purchases, in any fault
environment) preserves non-negative stock; in particular a purchase
never writes a negative stock value. -/
theorem C6_stock_never_negative (st : SysState) (ops : List Op)
    (h : stockInv st.db) : stockInv ((ops.foldl applyOp st).db) := by
  induction ops generalizing st with
  | nil => exact h
  | cons op rest ih => exact ih (applyOp st op) (applyOp_stockInv st op h)

/-- Empty store (used by the C6 witness). -/
def stEmpty : SysState :=
  { db := { products := [], orders := [], transactions := [], audit_logs := [],
            next_order_id := 1, next_transaction_id := 1, next_product_id := 1,
            now := 0 },
    poolFree := 10 }

/-- Concrete operation sequence for the C6 witness: create a product
with stock 3, then purchase one unit of it. -/
def ops0 : List Op :=
  [Op.createProductOp 7 "Basket" 50 3,
   Op.purchaseOp envOk 2 1 1 "5 Hill Street" "203.0.113.9"]

/-- Witness for C6 at a concrete input. -/
theorem C6_witness :
    stockInv stEmpty.db ∧ stockInv ((ops0.foldl applyOp stEmpty).db) :=
  ⟨by decide, C6_stock_never_negative stEmpty ops0 (by decide)⟩

/-- Product with two units of stock (used for C7). -/
def prod2 : Product :=
  { product_id := 1, artisan_id := 7, product_name := "Jamdani Saree",
    price := 100, stock_quantity := 2 }

/-- Store holding `prod2` (used for C7). -/
def st2 : SysState :=
  { db := { products := [prod2], orders := [], transactions := [],
            audit_logs := [], next_order_id := 1, next_transaction_id := 1,
            next_product_id := 2, now := 0 },
    poolFree := 10 }

/-- Single-unit request for product 1 (used for C7). -/
def req1 : PurchaseRequest :=
  { product_id := 1, quantity := 1, shipping_address := "5 Hill Street" }

/-- C7 as stated is false on this code: with stock S = 2, quantity
q = 1 and N = 2 concurrent attempts, of which the second hits
`FOR UPDATE NOWAIT` contention while the first executes, only one
attempt succeeds — not floor(S / q) capped at N, which is 2.  A
contended attempt is turned away with LockContention and does not
run again, so stock remains. -/
theorem C7_counterexample :
    wfSchedule [true, false] ∧
    successCount (runConcurrent 2 req1 "203.0.113.9" st2 [true, false]).1 = 1 ∧
    successCount (runConcurrent 2 req1 "203.0.113.9" st2 [true, false]).1 ≠
      min 2 (((2 : ℤ) / 1).toNat) := by
  refine ⟨?_, ?_, ?_⟩
  · intro _; simp
  · decide
  · decide

lemma two_attempts_one_winner (buyer_id pid : Nat) (addr host : String)
    (st : SysState) (p : Product) (b1 b2 : Bool)
    (hpool : st.poolFree ≠ 0) (hfind : findProduct st.db pid = some p)
    (hS1 : p.stock_quantity = 1) (hwf : wfSchedule [b1, b2]) :
    successCount (runConcurrent buyer_id ⟨pid, 1, addr⟩ host st [b1, b2]).1 = 1 ∧
    (∀ r ∈ (runConcurrent buyer_id ⟨pid, 1, addr⟩ host st [b1, b2]).1,
      isSuccess r = false → r = .lockContention ∨ r = .soldOut) ∧
    (∃ p', findProduct
        (runConcurrent buyer_id ⟨pid, 1, addr⟩ host st [b1, b2]).2.db pid
        = some p' ∧ p'.stock_quantity = 0) := by
  have hge : (1 : ℤ) ≤ p.stock_quantity := by omega
  have hsucc := purchase_success_eq envOk buyer_id ⟨pid, 1, addr⟩ host st p
    rfl hpool rfl rfl hfind hge
  have hfind1 := findProduct_purchasedDb st.db buyer_id ⟨pid, 1, addr⟩ host p hfind
  have h0 : ({ p with stock_quantity :=
      p.stock_quantity - (1 : ℤ) } : Product).stock_quantity = 0 := by
    simp only []; omega
  cases b1 with
  | true =>
    cases b2 with
    | true =>
      have hlt1 : ({ p with stock_quantity :=
          p.stock_quantity - (1 : ℤ) } : Product).stock_quantity < (1 : ℤ) := by
        simp only []; omega
      have hrej := purchase_reject envOk buyer_id ⟨pid, 1, addr⟩ host
        { db := purchasedDb st.db buyer_id ⟨pid, 1, addr⟩ host p,
          poolFree := st.poolFree }
        { p with stock_quantity := p.stock_quantity - (1 : ℤ) }
        rfl hpool rfl hfind1 hlt1
      rw [if_pos h0] at hrej
      refine ⟨?_, ?_, ?_⟩
      · simp [runConcurrent, hsucc, hrej, successCount, isSuccess]
      · intro r hr
        simp only [runConcurrent, hsucc, hrej, if_true, List.mem_cons,
          List.not_mem_nil, or_false] at hr
        rcases hr with rfl | rfl
        · intro hfalse; simp [isSuccess] at hfalse
        · intro _; right; rfl
      · refine ⟨{ p with stock_quantity := p.stock_quantity - (1 : ℤ) }, ?_, h0⟩
        simp only [runConcurrent, hsucc, hrej, if_true]
        exact hfind1
    | false =>
      have hcont := purchase_contended buyer_id ⟨pid, 1, addr⟩ host
        { db := purchasedDb st.db buyer_id ⟨pid, 1, addr⟩ host p,
          poolFree := st.poolFree } hpool
      refine ⟨?_, ?_, ?_⟩
      · simp [runConcurrent, hsucc, hcont, successCount, isSuccess]
      · intro r hr
        simp only [runConcurrent, hsucc, hcont, if_true, Bool.false_eq_true,
          if_false, List.mem_cons, List.not_mem_nil, or_false] at hr
        rcases hr with rfl | rfl
        · intro hfalse; simp [isSuccess] at hfalse
        · intro _; left; rfl
      · refine ⟨{ p with stock_quantity := p.stock_quantity - (1 : ℤ) }, ?_, h0⟩
        simp only [runConcurrent, hsucc, hcont, if_true, Bool.false_eq_true,
          if_false]
        exact hfind1
  | false =>
    cases b2 with
    | true =>
      have hcont := purchase_contended buyer_id ⟨pid, 1, addr⟩ host st hpool
      refine ⟨?_, ?_, ?_⟩
      · simp [runConcurrent, hsucc, hcont, successCount, isSuccess]
      · intro r hr
        simp only [runConcurrent, hsucc, hcont, if_true, Bool.false_eq_true,
          if_false, List.mem_cons, List.not_mem_nil, or_false] at hr
        rcases hr with rfl | rfl
        · intro _; left; rfl
        · intro hfalse; simp [isSuccess] at hfalse
      · refine ⟨{ p with stock_quantity := p.stock_quantity - (1 : ℤ) }, ?_, h0⟩
        simp only [runConcurrent, hsucc, hcont, if_true, Bool.false_eq_true,
          if_false]
        exact hfind1
    | false =>
      exfalso
      have := hwf (by simp)
      simp at this

/-- C7 amended: over the lock-serialized resolutions of `N`
concurrent attempts of quantity `q` against stock `S`: the number of
successes is bounded by `N` and by `floor(S / q)`, and final stock
equals `S - successes * q`, never negative; when every attempt
acquires the lock the count is exactly `min N (floor(S / q))`; and
with `S = 1`, `q = 1`, `N = 2` under a well-formed resolution,
exactly one attempt succeeds, the other reports LockContention or
SoldOut, and final stock is 0. -/
theorem C7_amended (buyer_id pid : Nat) (addr host : String) (q : ℤ)
    (sched : List Bool) (st : SysState) (p : Product)
    (hq : 1 ≤ q) (hpool : st.poolFree ≠ 0)
    (hfind : findProduct st.db pid = some p) (hS : 0 ≤ p.stock_quantity) :
    (∃ p', findProduct
        (runConcurrent buyer_id ⟨pid, q, addr⟩ host st sched).2.db pid
        = some p' ∧
      p'.stock_quantity = p.stock_quantity -
        (successCount (runConcurrent buyer_id ⟨pid, q, addr⟩ host st sched).1 : ℤ)
          * q ∧
      0 ≤ p'.stock_quantity) ∧
    (successCount (runConcurrent buyer_id ⟨pid, q, addr⟩ host st sched).1 : ℤ)
      * q ≤ p.stock_quantity ∧
    successCount (runConcurrent buyer_id ⟨pid, q, addr⟩ host st sched).1
      ≤ sched.length ∧
    (sched.all (fun x => x) = true →
      successCount (runConcurrent buyer_id ⟨pid, q, addr⟩ host st sched).1 =
        min sched.length (p.stock_quantity / q).toNat) ∧
    (p.stock_quantity = 1 → q = 1 → sched.length = 2 → wfSchedule sched →
      successCount (runConcurrent buyer_id ⟨pid, q, addr⟩ host st sched).1 = 1 ∧
      (∀ r ∈ (runConcurrent buyer_id ⟨pid, q, addr⟩ host st sched).1,
        isSuccess r = false → r = .lockContention ∨ r = .soldOut) ∧
      (∃ p', findProduct
          (runConcurrent buyer_id ⟨pid, q, addr⟩ host st sched).2.db pid
          = some p' ∧ p'.stock_quantity = 0)) := by
  obtain ⟨hpool', hlen, p', hfind', hpid', hprice', hstock', hbound', hall'⟩ :=
    runConcurrent_spec buyer_id pid addr host q hq sched st p hpool hfind hS
  refine ⟨⟨p', hfind', hstock', ?_⟩, hbound', ?_, hall', ?_⟩
  · rw [hstock']
    linarith [hbound']
  · rw [← hlen]
    exact List.length_filter_le isSuccess _
  · intro h1 hq1 hlen2 hwf
    subst hq1
    obtain ⟨b1, b2, rfl⟩ := List.length_eq_two.mp hlen2
    exact two_attempts_one_winner buyer_id pid addr host st p b1 b2 hpool
      hfind h1 hwf

/-- Witness for the amended C7 at a concrete input: stock 2, two
attempts that both acquire the lock, two successes, final stock
0. -/
theorem C7_witness :
    (1 : ℤ) ≤ 1 ∧ findProduct st2.db 1 = some prod2 ∧
    (successCount
        (runConcurrent 2 ⟨1, 1, "5 Hill Street"⟩ "203.0.113.9" st2
          [true, true]).1 : ℤ) * 1 ≤ prod2.stock_quantity ∧
    ([true, true].all (fun x => x) = true →
      successCount
          (runConcurrent 2 ⟨1, 1, "5 Hill Street"⟩ "203.0.113.9" st2
            [true, true]).1 =
        min 2 (prod2.stock_quantity / 1).toNat) := by
  have h := C7_amended 2 1 "5 Hill Street" "203.0.113.9" 1 [true, true] st2
    prod2 (by decide) (by decide) (by decide) (by decide)
  exact ⟨by decide, by decide, h.2.1, h.2.2.2.1⟩

end Marketplace
